import Mathlib

/-!
Shallow embedding of the Training Portal front-end session logic
(src/frontend/src/App.jsx, final variant at lines 691-947, identical to
the variant in src/unnamed/part_001): origin resolution, the boot
classification of the `/api/me/` response, the two list fetches, and the
start-assignment action.
-/

namespace TrainingPortal

/-- JavaScript `sub.isPrefixOf`-based substring test on character lists:
`listContainsSub sub l` is true iff `sub` occurs contiguously in `l`. -/
def listContainsSub (sub : List Char) : List Char → Bool
  | [] => sub.isEmpty
  | c :: rest => sub.isPrefixOf (c :: rest) || listContainsSub sub rest

/-- JavaScript `s.includes(sub)`. -/
def strIncludes (s sub : String) : Bool :=
  listContainsSub sub.data s.data

/-- JavaScript `s.endsWith(suffix)`. -/
def strEndsWith (s suffix : String) : Bool :=
  suffix.data.isSuffixOf s.data

/-- JavaScript `s.startsWith(pre)`. -/
def strStartsWith (s pre : String) : Bool :=
  pre.data.isPrefixOf s.data

/-- ASCII lower-casing of one character, as `toLowerCase` acts on the
ASCII header and hostname strings this client handles. -/
def charLower (c : Char) : Char :=
  if 65 ≤ c.toNat ∧ c.toNat ≤ 90 then Char.ofNat (c.toNat + 32) else c

/-- JavaScript `s.toLowerCase()` on ASCII strings. -/
def strToLower (s : String) : String :=
  String.mk (s.data.map charLower)

/-- `hostname === "localhost" || hostname === "127.0.0.1"`
(App.jsx `isLocalHostHost`). -/
def isLocalHostHost (hostname : String) : Bool :=
  hostname == "localhost" || hostname == "127.0.0.1"

/-- `hostname.endsWith(".up.railway.app") || hostname.includes("railway.app")`
(App.jsx `isRailwayHost`). -/
def isRailwayHost (hostname : String) : Bool :=
  strEndsWith hostname ".up.railway.app" || strIncludes hostname "railway.app"

/-- `hostname.endsWith("pages.dev") || hostname.endsWith("integranethealth.com")`
(App.jsx `isDeployedFrontendHost`). -/
def isDeployedFrontendHost (hostname : String) : Bool :=
  strEndsWith hostname "pages.dev" || strEndsWith hostname "integranethealth.com"

/-- App.jsx `resolveApiBase`, made explicit in its two inputs: the browser
hostname and the build-time configured origin `ENV_API_BASE`
(`VITE_API_BASE_URL` with trailing slashes trimmed; `x || ""` on a string
is the string itself when nonempty and `""` otherwise, so it is the
identity here). -/
def resolveApiBase (hostname envApiBase : String) : String :=
  if isRailwayHost hostname then ""
  else if isLocalHostHost hostname then ""
  else if isDeployedFrontendHost hostname then envApiBase
  else envApiBase

/-- App.jsx `joinUrl`. -/
def joinUrl (base path : String) : String :=
  if base == "" then path
  else if strStartsWith path "/" then base ++ path
  else base ++ "/" ++ path

/-- Assignment record as the client reads it: `id`, `status`, and the three
places a course-version id is looked for
(`a.course_version?.id || a.course_version_id || a.course_version`).
`course_version` is modelled as an optional bare numeric id, the shape the
final fallback expects; absent fields are `none`. -/
structure AssignmentRec where
  id : Nat
  status : String
  course_version_obj_id : Option Nat
  course_version_id : Option Nat
  course_version : Option Nat
  deriving Repr, DecidableEq

/-- JavaScript truthiness of an optional number: `undefined`/`null` and `0`
are falsy. -/
def truthyNat : Option Nat → Bool
  | none => false
  | some n => n != 0

/-- JavaScript `x || y` on optional numbers: `y` when `x` is falsy. -/
def jsOrNat (x y : Option Nat) : Option Nat :=
  if truthyNat x then x else y

/-- `a.course_version?.id || a.course_version_id || a.course_version`. -/
def cvIdOf (a : AssignmentRec) : Option Nat :=
  jsOrNat (jsOrNat a.course_version_obj_id a.course_version_id) a.course_version

/-- JSON body of a list endpoint as the client reads it: `data.results`
may be absent (`data.results || []` supplies the default). -/
structure Payload where
  results : Option (List AssignmentRec)
  deriving Repr, DecidableEq

/-- An HTTP response as the fetch handlers observe it: status code, the
`content-type` header (`none` when absent), and the JSON body
(`none` when `r.json()` would throw). -/
structure Response where
  status : Nat
  contentType : Option String
  body : Option Payload
  deriving Repr, DecidableEq

/-- Fetch API `r.ok`: status in the inclusive range 200-299. -/
def Response.ok (r : Response) : Bool :=
  200 ≤ r.status && r.status ≤ 299

/-- `(r.headers.get("content-type") || "").toLowerCase()`. -/
def contentTypeLower (r : Response) : String :=
  strToLower (r.contentType.getD "")

/-- The five values of the `status` state variable
(`loading | authed | unauth | error | nobackend`). -/
inductive SessionState where
  | loading
  | authed
  | unauth
  | error
  | nobackend
  deriving Repr, DecidableEq

/-- Classification of the `/api/me/` fetch outcome by the boot effect
(App.jsx lines 827-851): `none` models the fetch itself throwing
(network failure), caught by the surrounding `try` into `error`.
Branches in source order: 401, non-JSON content-type, `!r.ok`,
JSON-parse failure (caught into `error`), success. -/
def classifyBoot : Option Response → SessionState
  | none => SessionState.error
  | some r =>
    if r.status == 401 then SessionState.unauth
    else if !(strIncludes (contentTypeLower r) "application/json") then SessionState.unauth
    else if !r.ok then SessionState.error
    else match r.body with
      | none => SessionState.error
      | some _ => SessionState.authed

/-- The whole boot effect (App.jsx lines 817-854): the `nobackend` guard
fires when the hostname is a deployed-frontend host and the resolved
`API_BASE` is empty, and then no network call is made; otherwise
`/api/me/` is fetched and classified. The second component records
whether `apiFetch` was invoked. -/
def boot (hostname envApiBase : String) (fetchResult : Option Response) :
    SessionState × Bool :=
  let apiBase := resolveApiBase hostname envApiBase
  if isDeployedFrontendHost hostname && apiBase == "" then
    (SessionState.nobackend, false)
  else
    (classifyBoot fetchResult, true)

/-- The four values of the per-list status variables
(`idle | loading | ready | error`). -/
inductive LocalStatus where
  | idle
  | loading
  | ready
  | error
  deriving Repr, DecidableEq

/-- Effect of one list-fetch handler run: which session-state write it
performed, if any (`setStatus`), the final value of its own status
variable, and the new list contents when it stored one. -/
structure ListLoadResult where
  sessionSet : Option SessionState
  localStatus : LocalStatus
  items : Option (List AssignmentRec)
  deriving Repr, DecidableEq

/-- App.jsx `loadCourses` (lines 856-867): sets `coursesStatus` to
`loading`, fetches `/api/courses/`; any throw (network failure, `!r.ok`,
or JSON-parse failure) lands in the catch as a local `error`; on success
stores `data.results || []` and sets `ready`. There is no 401 or
content-type branch and no `setStatus` call. `none` models the fetch
throwing. -/
def loadCourses : Option Response → ListLoadResult
  | none => ⟨none, LocalStatus.error, none⟩
  | some r =>
    if !r.ok then ⟨none, LocalStatus.error, none⟩
    else match r.body with
      | none => ⟨none, LocalStatus.error, none⟩
      | some p => ⟨none, LocalStatus.ready, some (p.results.getD [])⟩

/-- App.jsx `loadAssignments` (lines 869-899): sets `assignStatus` to
`loading`, fetches `/api/me/assignments/`; on 401 or a non-JSON
content-type calls `setStatus("unauth")` and returns early, leaving
`assignStatus` at `loading`; any other non-success or JSON-parse failure
throws into the catch as a local `error`; on success stores
`data.results || []` and sets `ready`. -/
def loadAssignments : Option Response → ListLoadResult
  | none => ⟨none, LocalStatus.error, none⟩
  | some r =>
    if r.status == 401 then
      ⟨some SessionState.unauth, LocalStatus.loading, none⟩
    else if !(strIncludes (contentTypeLower r) "application/json") then
      ⟨some SessionState.unauth, LocalStatus.loading, none⟩
    else if !r.ok then ⟨none, LocalStatus.error, none⟩
    else match r.body with
      | none => ⟨none, LocalStatus.error, none⟩
      | some p => ⟨none, LocalStatus.ready, some (p.results.getD [])⟩

/-- Effect of one `startAssignment` run: whether `alert` fired, the URL
assigned to `window.location.href` if any, whether `loadAssignments` was
re-run, and the session-state write that reload performed, if any. -/
structure StartResult where
  alerted : Bool
  navigatedTo : Option String
  reloadIssued : Bool
  sessionSet : Option SessionState
  deriving Repr, DecidableEq

/-- App.jsx `startAssignment` (lines 921-947): POSTs
`/api/assignments/{id}/start/`; a network throw or `!r.ok` lands in the
catch, which alerts and neither reloads nor navigates (before the fetch
only `busyId` was set, and it is cleared in the `finally`); on success it
awaits `loadAssignments` (whose own catch keeps it from throwing) on the
reload response `rReload`, then navigates to
`backendUrl("/training/" + cvId + "/")` only when `cvId` is truthy. -/
def startAssignment (apiBase : String) (a : AssignmentRec)
    (r : Option Response) (rReload : Option Response) : StartResult :=
  match r with
  | none => ⟨true, none, false, none⟩
  | some r =>
    if !r.ok then ⟨true, none, false, none⟩
    else
      let cvId := cvIdOf a
      let nav := if truthyNat cvId then
          some (joinUrl apiBase ("/training/" ++ toString (cvId.getD 0) ++ "/"))
        else none
      ⟨false, nav, true, (loadAssignments rReload).sessionSet⟩

/-- One handler invocation after page load, carrying the response(s) it
observed. These are all the code paths that can call `setStatus`:
the boot effect, `loadCourses`, `loadAssignments`, and `startAssignment`
(via its internal reload). -/
inductive Handler where
  | bootH (hostname envApiBase : String) (r : Option Response)
  | coursesH (r : Option Response)
  | assignH (r : Option Response)
  | startH (apiBase : String) (a : AssignmentRec)
      (r : Option Response) (rReload : Option Response)

/-- The session-state write a handler performs, if any. The boot effect
always writes exactly one value; the others write only on their
`setStatus` branches. -/
def handlerSessionUpdate : Handler → Option SessionState
  | Handler.bootH hostname envApiBase r => some (boot hostname envApiBase r).1
  | Handler.coursesH r => (loadCourses r).sessionSet
  | Handler.assignH r => (loadAssignments r).sessionSet
  | Handler.startH apiBase a r rReload =>
      (startAssignment apiBase a r rReload).sessionSet

/-- The session state after a handler runs: unchanged unless the handler
called `setStatus`. -/
def applyHandler (cur : SessionState) (h : Handler) : SessionState :=
  (handlerSessionUpdate h).getD cur

/-- The dashboard `counts` memo (App.jsx lines 906-912). -/
structure Counts where
  assigned : Nat
  inProgress : Nat
  completed : Nat
  overdue : Nat
  total : Nat
  deriving Repr, DecidableEq

/-- App.jsx `counts`: each bucket is the length of the list filtered on
the exact status string; `total` is the list length. -/
def counts (assignments : List AssignmentRec) : Counts :=
  { completed := (assignments.filter (fun a => a.status == "COMPLETED")).length
  , inProgress := (assignments.filter (fun a => a.status == "IN_PROGRESS")).length
  , assigned := (assignments.filter (fun a => a.status == "ASSIGNED")).length
  , overdue := (assignments.filter (fun a => a.status == "OVERDUE")).length
  , total := assignments.length }

/-! Helper lemmas shared by several claim theorems. -/

/-- The boot classification never yields `loading`. -/
theorem classifyBoot_ne_loading (fr : Option Response) :
    classifyBoot fr ≠ SessionState.loading := by
  cases fr with
  | none => simp [classifyBoot]
  | some r =>
    simp only [classifyBoot]
    split
    · simp
    · split
      · simp
      · split
        · simp
        · cases r.body <;> simp

/-- The first component of `boot` is never `loading`. -/
theorem boot_fst_ne_loading (hostname envApiBase : String) (fr : Option Response) :
    (boot hostname envApiBase fr).1 ≠ SessionState.loading := by
  simp only [boot]
  split
  · simp
  · exact classifyBoot_ne_loading fr

/-- `loadCourses` never calls `setStatus`. -/
theorem loadCourses_sessionSet_none (r : Option Response) :
    (loadCourses r).sessionSet = none := by
  cases r with
  | none => rfl
  | some r =>
    simp only [loadCourses]
    split
    · rfl
    · cases r.body <;> rfl

/-- A `setStatus` call from `loadAssignments` can only write `unauth`. -/
theorem loadAssignments_sessionSet_cases (r : Option Response) :
    (loadAssignments r).sessionSet = none ∨
    (loadAssignments r).sessionSet = some SessionState.unauth := by
  cases r with
  | none => exact Or.inl rfl
  | some r =>
    simp only [loadAssignments]
    split
    · exact Or.inr rfl
    · split
      · exact Or.inr rfl
      · split
        · exact Or.inl rfl
        · cases r.body <;> simp

/-- A `setStatus` call reachable from `startAssignment` (through its
internal reload) can only write `unauth`. -/
theorem startAssignment_sessionSet_cases (apiBase : String) (a : AssignmentRec)
    (r rReload : Option Response) :
    (startAssignment apiBase a r rReload).sessionSet = none ∨
    (startAssignment apiBase a r rReload).sessionSet = some SessionState.unauth := by
  cases r with
  | none => exact Or.inl rfl
  | some r =>
    simp only [startAssignment]
    split
    · exact Or.inl rfl
    · exact loadAssignments_sessionSet_cases rReload

/-- With an empty configured origin, `resolveApiBase` is empty on every
hostname. -/
theorem resolveApiBase_empty (hostname : String) :
    resolveApiBase hostname "" = "" := by
  simp only [resolveApiBase]
  split
  · rfl
  · split
    · rfl
    · split <;> rfl

/-! Claim theorems. -/

/-- C1: every HTTP 200 response whose content-type does not include
"application/json" is classified `unauth` by the boot sequence, never
`authed` or `error`; whenever the boot actually issues the fetch, the
resulting session state is `unauth`. -/
theorem boot_200_nonjson_unauth (r : Response) (h200 : r.status = 200)
    (hct : strIncludes (contentTypeLower r) "application/json" = false) :
    classifyBoot (some r) = SessionState.unauth ∧
    ∀ hostname envApiBase : String,
      (boot hostname envApiBase (some r)).2 = true →
      (boot hostname envApiBase (some r)).1 = SessionState.unauth := by
  have hclass : classifyBoot (some r) = SessionState.unauth := by
    simp [classifyBoot, h200, hct]
  refine ⟨hclass, fun hostname envApiBase hfetch => ?_⟩
  simp only [boot] at hfetch ⊢
  split at hfetch
  · simp at hfetch
  · rename_i hguard
    simp only [if_neg hguard]
    exact hclass

/-- C1 witness: a concrete 200 response with an HTML content-type is
classified `unauth`. -/
theorem boot_200_nonjson_unauth_witness :
    classifyBoot (some (Response.mk 200 (some "text/html; charset=utf-8") none)) =
      SessionState.unauth :=
  (boot_200_nonjson_unauth (Response.mk 200 (some "text/html; charset=utf-8") none)
    rfl (by decide)).1

/-- C2: every HTTP 401 response is classified `unauth` by the boot
sequence, regardless of body or content-type; whenever the boot actually
issues the fetch, the resulting session state is `unauth`. -/
theorem boot_401_unauth (r : Response) (h401 : r.status = 401) :
    classifyBoot (some r) = SessionState.unauth ∧
    ∀ hostname envApiBase : String,
      (boot hostname envApiBase (some r)).2 = true →
      (boot hostname envApiBase (some r)).1 = SessionState.unauth := by
  have hclass : classifyBoot (some r) = SessionState.unauth := by
    simp [classifyBoot, h401]
  refine ⟨hclass, fun hostname envApiBase hfetch => ?_⟩
  simp only [boot] at hfetch ⊢
  split at hfetch
  · simp at hfetch
  · rename_i hguard
    simp only [if_neg hguard]
    exact hclass

/-- C2 witness: a concrete 401 response with a JSON body is still
classified `unauth`. -/
theorem boot_401_unauth_witness :
    classifyBoot (some (Response.mk 401 (some "application/json")
      (some (Payload.mk (some []))))) = SessionState.unauth :=
  (boot_401_unauth (Response.mk 401 (some "application/json")
    (some (Payload.mk (some [])))) rfl).1

/-- C3 counterexample: a non-success response other than 401 is not always
classified `error` — HTTP 500 with content-type text/html satisfies
`r.ok = false` and `r.status ≠ 401`, yet the boot sequence classifies it
`unauth`, because the content-type branch precedes the `!r.ok` branch. -/
theorem boot_500_html_unauth_cex :
    (Response.mk 500 (some "text/html") none).ok = false ∧
    (Response.mk 500 (some "text/html") none).status ≠ 401 ∧
    classifyBoot (some (Response.mk 500 (some "text/html") none)) =
      SessionState.unauth := by
  refine ⟨by decide, by decide, ?_⟩
  decide

/-- C3 amended: every non-success response other than 401 whose
content-type does include "application/json" is classified `error` by the
boot sequence. -/
theorem boot_json_non401_failure_error (r : Response)
    (hok : r.ok = false) (h401 : r.status ≠ 401)
    (hct : strIncludes (contentTypeLower r) "application/json" = true) :
    classifyBoot (some r) = SessionState.error := by
  simp [classifyBoot, hok, h401, hct]

/-- C3 witness for the amended claim: a concrete 500 response with a JSON
content-type is classified `error`. -/
theorem boot_json_non401_failure_error_witness :
    classifyBoot (some (Response.mk 500 (some "application/json") none)) =
      SessionState.error :=
  boot_json_non401_failure_error (Response.mk 500 (some "application/json") none)
    (by decide) (by decide) (by decide)

/-- C4: `resolveApiBase` is a pure function of the hostname and the
configured origin, and on every local or first-party hostname
(localhost, 127.0.0.1, or any Railway host) it returns the empty base
(same-origin), whatever the configured origin is. -/
theorem resolveApiBase_local_first_party (hostname envApiBase : String)
    (h : (isLocalHostHost hostname || isRailwayHost hostname) = true) :
    resolveApiBase hostname envApiBase = "" := by
  cases hrw : isRailwayHost hostname with
  | true => simp [resolveApiBase, hrw]
  | false =>
    cases hl : isLocalHostHost hostname with
    | true => simp [resolveApiBase, hrw, hl]
    | false =>
      rw [hl, hrw] at h
      simp at h

/-- C4 witness: with a configured origin present, localhost and a Railway
host both resolve to same-origin. -/
theorem resolveApiBase_local_first_party_witness :
    resolveApiBase "localhost" "https://api.example.com" = "" ∧
    resolveApiBase "web-production.up.railway.app" "https://api.example.com" = "" :=
  ⟨resolveApiBase_local_first_party "localhost" "https://api.example.com" (by decide),
   resolveApiBase_local_first_party "web-production.up.railway.app"
     "https://api.example.com" (by decide)⟩

/-- C5: on every static-hosting hostname (ending in pages.dev or
integranethealth.com) with an empty resolved `API_BASE` (in particular
whenever no origin is configured, by `resolveApiBase_empty`), the boot
sequence sets the session state to `nobackend` and issues no network
call, whatever a fetch would have returned. -/
theorem boot_static_no_origin_nobackend (hostname envApiBase : String)
    (fr : Option Response)
    (h : isDeployedFrontendHost hostname = true)
    (hbase : resolveApiBase hostname envApiBase = "") :
    boot hostname envApiBase fr = (SessionState.nobackend, false) := by
  simp [boot, hbase, h]

/-- C5 witness: a concrete pages.dev hostname with empty configuration
reaches `nobackend` without fetching, even when a successful response
would have been available. -/
theorem boot_static_no_origin_nobackend_witness :
    boot "portal.pages.dev" ""
      (some (Response.mk 200 (some "application/json") (some (Payload.mk (some []))))) =
      (SessionState.nobackend, false) :=
  boot_static_no_origin_nobackend "portal.pages.dev" ""
    (some (Response.mk 200 (some "application/json") (some (Payload.mk (some [])))))
    (by decide) (resolveApiBase_empty "portal.pages.dev")

/-- C6 counterexample: `loadCourses` does not treat HTTP 401 like the boot
classification — on a 401 response it performs no session-state write at
all and merely marks its own list status `error`, contradicting the claim
that each list fetch transitions the overall session state to `unauth` on
401. -/
theorem loadCourses_401_keeps_session_cex :
    (loadCourses (some (Response.mk 401 (some "text/html") none))).sessionSet = none ∧
    (loadCourses (some (Response.mk 401 (some "text/html") none))).localStatus =
      LocalStatus.error := by
  decide

/-- C6 amended: `loadAssignments` transitions the session state to
`unauth` on 401 or a non-JSON content-type and confines every other
failure to its own `error` status without touching the session state;
`loadCourses` never writes the session state and treats every failure —
a network throw, a non-success status (401 included), or a success
response whose body fails to parse as JSON (the HTML login page) — as a
local `coursesStatus` error. -/
theorem list_fetch_session_handling (r : Response) :
    ((r.status = 401 ∨ strIncludes (contentTypeLower r) "application/json" = false) →
      (loadAssignments (some r)).sessionSet = some SessionState.unauth) ∧
    (r.status ≠ 401 → strIncludes (contentTypeLower r) "application/json" = true →
      r.ok = false →
      (loadAssignments (some r)).sessionSet = none ∧
      (loadAssignments (some r)).localStatus = LocalStatus.error) ∧
    (loadCourses (some r)).sessionSet = none ∧
    (r.ok = false ∨ r.body = none →
      (loadCourses (some r)).localStatus = LocalStatus.error) ∧
    (loadCourses none).sessionSet = none ∧
    (loadCourses none).localStatus = LocalStatus.error := by
  refine ⟨?_, ?_, loadCourses_sessionSet_none (some r), ?_, rfl, rfl⟩
  · intro h
    by_cases h401 : r.status = 401
    · simp [loadAssignments, h401]
    · have hct : strIncludes (contentTypeLower r) "application/json" = false := by
        rcases h with h1 | h2
        · exact absurd h1 h401
        · exact h2
      simp [loadAssignments, h401, hct]
  · intro h401 hct hok
    simp [loadAssignments, h401, hct, hok]
  · intro h
    cases hok : r.ok with
    | false => simp [loadCourses, hok]
    | true =>
      have hbody : r.body = none := by
        rcases h with h1 | h2
        · rw [hok] at h1
          cases h1
        · exact h2
      simp [loadCourses, hok, hbody]

/-- C6 witness for the amended claim: a 401 on the assignments fetch
writes `unauth`; on the courses fetch, a 500 with a JSON content-type and
an HTTP 200 HTML login page whose body does not parse as JSON both stay a
local error with no session write. -/
theorem list_fetch_session_handling_witness :
    (loadAssignments (some (Response.mk 401 (some "application/json") none))).sessionSet =
      some SessionState.unauth ∧
    (loadCourses (some (Response.mk 200 (some "text/html") none))).localStatus =
      LocalStatus.error ∧
    (loadCourses (some (Response.mk 200 (some "text/html") none))).sessionSet = none ∧
    (loadCourses (some (Response.mk 500 (some "application/json") none))).localStatus =
      LocalStatus.error :=
  ⟨(list_fetch_session_handling (Response.mk 401 (some "application/json") none)).1
     (Or.inl rfl),
   (list_fetch_session_handling (Response.mk 200 (some "text/html") none)).2.2.2.1
     (Or.inr rfl),
   (list_fetch_session_handling (Response.mk 200 (some "text/html") none)).2.2.1,
   (list_fetch_session_handling (Response.mk 500 (some "application/json") none)).2.2.2.1
     (Or.inl (by decide))⟩

/-- C7: when the start-assignment POST comes back non-success (such as
HTTP 500), the handler alerts, assigns nothing to `window.location.href`,
does not reload the assignment list, and performs no session-state write —
no local assignment state was mutated before the response, so there is
nothing to roll back. -/
theorem startAssignment_failure_blocks (apiBase : String) (a : AssignmentRec)
    (r : Response) (rReload : Option Response) (hok : r.ok = false) :
    startAssignment apiBase a (some r) rReload =
      StartResult.mk true none false none := by
  simp [startAssignment, hok]

/-- C7 witness: a concrete 500 reply to the POST alerts and leaves
everything else untouched. -/
theorem startAssignment_failure_blocks_witness :
    startAssignment "" (AssignmentRec.mk 1 "ASSIGNED" none none (some 7))
      (some (Response.mk 500 (some "text/html") none)) none =
      StartResult.mk true none false none :=
  startAssignment_failure_blocks "" (AssignmentRec.mk 1 "ASSIGNED" none none (some 7))
    (Response.mk 500 (some "text/html") none) none (by decide)

/-- C8 counterexample: a terminal session state can change again —
starting from the terminal value `authed`, the assignments fetch handler
observing a 401 overwrites it with `unauth`. -/
theorem authed_overwritten_after_terminal_cex :
    SessionState.authed ≠ SessionState.loading ∧
    applyHandler SessionState.authed
        (Handler.assignH (some (Response.mk 401 (some "text/html") none))) ≠
      SessionState.authed := by
  decide

/-- C8 amended: the session state never returns to `loading` — every
`setStatus` write by any handler is a non-`loading` value — and the only
post-boot writes are the `unauth` ones from `loadAssignments` (directly
or through `startAssignment`'s reload); `loadCourses` never writes.
A terminal state can thus still change once more, from `authed` to
`unauth`, when a later fetch observes 401 or non-JSON. -/
theorem session_no_reentry_to_loading :
    (∀ h s, handlerSessionUpdate h = some s → s ≠ SessionState.loading) ∧
    (∀ r, (loadCourses r).sessionSet = none) ∧
    (∀ r, (loadAssignments r).sessionSet = none ∨
      (loadAssignments r).sessionSet = some SessionState.unauth) ∧
    (∀ apiBase a r rReload,
      (startAssignment apiBase a r rReload).sessionSet = none ∨
      (startAssignment apiBase a r rReload).sessionSet = some SessionState.unauth) := by
  refine ⟨?_, loadCourses_sessionSet_none, loadAssignments_sessionSet_cases,
    startAssignment_sessionSet_cases⟩
  intro h s heq
  cases h with
  | bootH hostname envApiBase r =>
    simp only [handlerSessionUpdate] at heq
    have h2 := Option.some.inj heq
    rw [← h2]
    exact boot_fst_ne_loading hostname envApiBase r
  | coursesH r =>
    rw [handlerSessionUpdate, loadCourses_sessionSet_none r] at heq
    cases heq
  | assignH r =>
    rw [handlerSessionUpdate] at heq
    rcases loadAssignments_sessionSet_cases r with hc | hc
    · rw [hc] at heq
      cases heq
    · rw [hc] at heq
      have h2 := Option.some.inj heq
      rw [← h2]
      simp
  | startH apiBase a r rReload =>
    rw [handlerSessionUpdate] at heq
    rcases startAssignment_sessionSet_cases apiBase a r rReload with hc | hc
    · rw [hc] at heq
      cases heq
    · rw [hc] at heq
      have h2 := Option.some.inj heq
      rw [← h2]
      simp

/-- C8 witness for the amended claim: the concrete `unauth` write
performed by the assignments handler on a 401 is not `loading`, and the
courses handler writes nothing. -/
theorem session_no_reentry_to_loading_witness :
    SessionState.unauth ≠ SessionState.loading ∧
    (loadCourses none).sessionSet = none :=
  ⟨session_no_reentry_to_loading.1
     (Handler.assignH (some (Response.mk 401 (some "text/html") none)))
     SessionState.unauth (by decide),
   session_no_reentry_to_loading.2.1 none⟩

/-- C9: the payload whose `results` list holds the single record
id 1 / status ASSIGNED, once stored by `loadAssignments`, yields
dashboard counts assigned=1, inProgress=0, completed=0; in general every
bucket of `counts` equals the number of assignment records whose `status`
field equals the corresponding status string. -/
theorem counts_by_status :
    (loadAssignments (some (Response.mk 200 (some "application/json")
        (some (Payload.mk (some [AssignmentRec.mk 1 "ASSIGNED" none none none])))))).items =
      some [AssignmentRec.mk 1 "ASSIGNED" none none none] ∧
    counts [AssignmentRec.mk 1 "ASSIGNED" none none none] = Counts.mk 1 0 0 0 1 ∧
    ∀ l : List AssignmentRec,
      (counts l).assigned = l.countP (fun a => a.status == "ASSIGNED") ∧
      (counts l).inProgress = l.countP (fun a => a.status == "IN_PROGRESS") ∧
      (counts l).completed = l.countP (fun a => a.status == "COMPLETED") ∧
      (counts l).overdue = l.countP (fun a => a.status == "OVERDUE") ∧
      (counts l).total = l.length := by
  refine ⟨by decide, by decide, fun l => ?_⟩
  simp [counts, List.countP_eq_length_filter]

/-- C10: when the start-assignment POST succeeds but none of
`course_version?.id`, `course_version_id`, `course_version` is truthy,
the assignment list is reloaded but `window.location.href` is never
assigned and no alert fires — the user silently stays on the dashboard. -/
theorem startAssignment_success_no_cvid (apiBase : String) (a : AssignmentRec)
    (r : Response) (rReload : Option Response)
    (hok : r.ok = true) (hcv : truthyNat (cvIdOf a) = false) :
    (startAssignment apiBase a (some r) rReload).navigatedTo = none ∧
    (startAssignment apiBase a (some r) rReload).reloadIssued = true ∧
    (startAssignment apiBase a (some r) rReload).alerted = false := by
  simp [startAssignment, hok, hcv]

/-- C10 witness: a successful POST for a record with no course-version
identifier reloads but does not navigate. -/
theorem startAssignment_success_no_cvid_witness :
    (startAssignment "" (AssignmentRec.mk 1 "ASSIGNED" none none none)
      (some (Response.mk 200 (some "application/json") (some (Payload.mk (some [])))))
      (some (Response.mk 200 (some "application/json")
        (some (Payload.mk (some [])))))).navigatedTo = none :=
  (startAssignment_success_no_cvid "" (AssignmentRec.mk 1 "ASSIGNED" none none none)
    (Response.mk 200 (some "application/json") (some (Payload.mk (some []))))
    (some (Response.mk 200 (some "application/json") (some (Payload.mk (some [])))))
    (by decide) (by decide)).1

end TrainingPortal
